import Mathlib

/-!
Verification of the node-to-code rendering engine of the pixelbyte-figma-mcp
repository (`figma_mcp.py`, `generators/swiftui_generator.py`).

The Python source manipulates JSON-like dictionaries.  We embed each raw node
as a record of `Option`-valued attributes; an absent dictionary key is `none`,
and every `d.get(k, default)` in the source becomes `field.getD default` here.
JSON numbers are embedded as exact rationals (the kernel-computable type `Q`
below); Python's `int(x)` is truncation toward zero and `f"{x:.kf}"` is
fixed-point formatting with round-half-to-even, both defined below.  Python
functions that can raise on some inputs are embedded with an `Option`-valued
result, `none` marking the raising execution path.
-/

/-!  ## Kernel-computable exact rationals -/

/-- Fuel-driven Euclidean algorithm (structural recursion, so that closed
values reduce inside the kernel). -/
def gcdFuel : ℕ → ℕ → ℕ → ℕ
  | 0, _, n => n
  | _ + 1, 0, n => n
  | f + 1, m + 1, n => gcdFuel f (n % (m + 1)) (m + 1)

/-- Greatest common divisor via `gcdFuel`; `m + 1` steps always suffice. -/
def ngcd (m n : ℕ) : ℕ := gcdFuel (m + 1) m n

/-- An exact rational with nonnegative reduced representation maintained by
`Q.mk'`.  All operations are structural, so closed terms evaluate by
`decide`/`rfl`. -/
structure Q where
  num : ℤ
  den : ℕ
  deriving DecidableEq, Repr

/-- Build a normalized rational from a numerator and a (nonzero) integer
denominator. -/
def Q.mk' (n d : ℤ) : Q :=
  if d = 0 then ⟨0, 1⟩
  else
    let n' : ℤ := if d < 0 then -n else n
    let dn : ℕ := d.natAbs
    let g : ℕ := ngcd n'.natAbs dn
    let m : ℕ := n'.natAbs / g
    ⟨if n' < 0 then -(m : ℤ) else (m : ℤ), dn / g⟩

instance : OfNat Q n := ⟨⟨(n : ℤ), 1⟩⟩
instance : Add Q := ⟨fun a b => Q.mk' (a.num * b.den + b.num * a.den) ((a.den : ℤ) * b.den)⟩
instance : Sub Q := ⟨fun a b => Q.mk' (a.num * b.den - b.num * a.den) ((a.den : ℤ) * b.den)⟩
instance : Mul Q := ⟨fun a b => Q.mk' (a.num * b.num) ((a.den : ℤ) * b.den)⟩
instance : Div Q := ⟨fun a b => Q.mk' (a.num * b.den) ((a.den : ℤ) * b.num)⟩
instance : Neg Q := ⟨fun a => ⟨-a.num, a.den⟩⟩
instance : LT Q := ⟨fun a b => a.num * (b.den : ℤ) < b.num * (a.den : ℤ)⟩
instance : LE Q := ⟨fun a b => a.num * (b.den : ℤ) ≤ b.num * (a.den : ℤ)⟩

instance (a b : Q) : Decidable (a < b) := by
  unfold instLTQ; exact inferInstanceAs (Decidable (_ < _))

instance (a b : Q) : Decidable (a ≤ b) := by
  unfold instLEQ; exact inferInstanceAs (Decidable (_ ≤ _))

/-- The larger of two rationals (Python `max`). -/
def Q.max (a b : Q) : Q := if a ≤ b then b else a

/-- Truncation toward zero, the behaviour of Python `int(x)`. -/
def ratTrunc (q : Q) : ℤ :=
  if 0 ≤ q.num then (q.num.natAbs / q.den : ℕ) else -((q.num.natAbs / q.den : ℕ) : ℤ)

/-- Floor of a rational as an integer (used by the fixed-point formatter). -/
def ratFloor (q : Q) : ℤ := Int.fdiv q.num (q.den : ℤ)

/-- Multiply a rational by a natural number (kept reduced). -/
def Q.scaleNat (q : Q) (k : ℕ) : Q := Q.mk' (q.num * (k : ℤ)) (q.den : ℤ)

/-- Round half to even, the rounding used by Python float formatting. -/
def roundHalfEven (q : Q) : ℤ :=
  let f := ratFloor q
  let frac := q - ⟨f, 1⟩
  if frac < ⟨1, 2⟩ then f
  else if (⟨1, 2⟩ : Q) < frac then f + 1
  else if f % 2 = 0 then f else f + 1

/-- Embedding of Python `f"{q:.kf}"`: fixed-point with `k` fractional digits.
Negative values that round to zero print without the sign here; the source
never formats such values. -/
def fmtFixed (k : ℕ) (q : Q) : String :=
  let n := roundHalfEven (q.scaleNat (10 ^ k))
  let m := n.natAbs
  let ip := m / 10 ^ k
  let fp := m % 10 ^ k
  let fpDigits := toString fp
  let fpStr := String.mk (List.replicate (k - fpDigits.length) '0' ++ fpDigits.toList)
  (if n < 0 then "-" else "") ++ toString ip ++ "." ++ fpStr

/-- Embedding of Python `f"{q}"` for a JSON number: integers print without a
decimal point, terminating decimals print in shortest decimal form.  (The
fallback for non-terminating decimals is a long fixed-point rendering; no
value in the source or the claims hits it.) -/
def fmtPyNum (q : Q) : String :=
  if q.den = 1 then toString q.num
  else
    match (List.range 18).find? (fun k => (q.scaleNat (10 ^ k)).den = 1) with
    | some k => fmtFixed k q
    | none => fmtFixed 17 q

/-- Embedding of Python `f"{n:02x}"`: lowercase hex, zero-padded to total
width two (a sign counts toward the width, as in Python). -/
def hex02 (n : ℤ) : String :=
  let digits := Nat.toDigits 16 n.natAbs
  let signLen : ℕ := if n < 0 then 1 else 0
  let pad := 2 - (digits.length + signLen)
  (if n < 0 then "-" else "") ++ String.mk (List.replicate pad '0' ++ digits)

/-- Substring test used to state "the output contains marker X". -/
def strHasSub (s pat : String) : Prop := pat.toList <:+: s.toList

instance (s pat : String) : Decidable (strHasSub s pat) :=
  List.decidableInfix pat.toList s.toList

/-- Embedding of Python `sep.join(parts)` (structurally recursive). -/
def joinSep (sep : String) : List String → String
  | [] => ""
  | [x] => x
  | x :: y :: rest => x ++ sep ++ joinSep sep (y :: rest)

/-- Python `s.lower()` for ASCII strings (list-based so that closed terms
reduce inside the kernel). -/
def pyLower (s : String) : String := String.mk (s.toList.map Char.toLower)

/-- Python `s.upper()` for ASCII strings. -/
def pyUpper (s : String) : String := String.mk (s.toList.map Char.toUpper)

/-- Prefix test (list-based `str.startswith`). -/
def strStartsWith (s pre : String) : Bool := pre.toList.isPrefixOf s.toList

/-- Drop the first `n` characters (list-based slicing `s[n:]`). -/
def strDrop (s : String) (n : ℕ) : String := String.mk (s.toList.drop n)

/-!  ## Raw-node data model

Each structure mirrors the raw Figma JSON dictionaries the Python functions
read; every optional key is an `Option` field defaulting to `none`.
-/

/-- A raw RGBA color dictionary (`{'r': …, 'g': …, 'b': …, 'a': …}`). -/
structure ColorD where
  r : Option Q := none
  g : Option Q := none
  b : Option Q := none
  a : Option Q := none
  deriving DecidableEq

/-- A raw 2-d vector dictionary (`{'x': …, 'y': …}`). -/
structure Vec2 where
  x : Option Q := none
  y : Option Q := none
  deriving DecidableEq

/-- A raw gradient stop dictionary. -/
structure GradientStopD where
  color : Option ColorD := none
  position : Option Q := none
  deriving DecidableEq

/-- A raw paint dictionary, used for both fill and stroke layers. -/
structure Paint where
  type : Option String := none
  visible : Option Bool := none
  color : Option ColorD := none
  opacity : Option Q := none
  blendMode : Option String := none
  gradientStops : Option (List GradientStopD) := none
  gradientHandlePositions : Option (List Vec2) := none
  imageRef : Option String := none
  deriving DecidableEq

/-- A raw effect dictionary (shadow or blur). -/
structure EffectD where
  type : Option String := none
  visible : Option Bool := none
  radius : Option Q := none
  spread : Option Q := none
  color : Option ColorD := none
  offset : Option Vec2 := none
  blendMode : Option String := none
  showShadowBehindNode : Option Bool := none
  deriving DecidableEq

/-- A raw bounding-box dictionary. -/
structure BBox where
  x : Option Q := none
  y : Option Q := none
  width : Option Q := none
  height : Option Q := none
  deriving DecidableEq

/-- The raw `style` dictionary of a TEXT node (only the keys the embedded
renderers read). -/
structure TextStyleD where
  fontSize : Option Q := none
  fontWeight : Option Q := none
  deriving DecidableEq

/-- A raw Figma node dictionary, restricted to the attributes the embedded
functions read.  Child lists are passed to the child-rendering loops
separately, mirroring the `node.get('children', [])` read at each call site.
The `relativeTransform` matrix is not modelled (its scale extraction uses a
floating-point square root and no claim touches it). -/
structure Node where
  type : Option String := none
  name : Option String := none
  characters : Option String := none
  visible : Option Bool := none
  opacity : Option Q := none
  rotation : Option Q := none
  blendMode : Option String := none
  absoluteBoundingBox : Option BBox := none
  fills : Option (List Paint) := none
  strokes : Option (List Paint) := none
  effects : Option (List EffectD) := none
  strokeWeight : Option Q := none
  strokeAlign : Option String := none
  strokeCap : Option String := none
  strokeJoin : Option String := none
  strokeMiterLimit : Option Q := none
  strokeDashCap : Option String := none
  strokeDashes : Option (List Q) := none
  cornerRadius : Option Q := none
  rectangleCornerRadii : Option (List Q) := none
  layoutMode : Option String := none
  itemSpacing : Option Q := none
  paddingTop : Option Q := none
  paddingRight : Option Q := none
  paddingBottom : Option Q := none
  paddingLeft : Option Q := none
  primaryAxisAlignItems : Option String := none
  counterAxisAlignItems : Option String := none
  clipsContent : Option Bool := none
  style : Option TextStyleD := none

/-!  ## Color conversion (`figma_mcp.py`, `_rgba_to_hex`) -/

/-- Embedding of `_rgba_to_hex` (figma_mcp.py:572-581).  Despite its name and
docstring ("Convert Figma RGBA color to hex"), the source returns an
`rgba(...)` string whenever alpha is below 1. -/
def rgba_to_hex (color : ColorD) : String :=
  let r := ratTrunc ((color.r.getD 0) * 255)
  let g := ratTrunc ((color.g.getD 0) * 255)
  let b := ratTrunc ((color.b.getD 0) * 255)
  let a := color.a.getD 1
  if a < 1 then
    "rgba(" ++ toString r ++ ", " ++ toString g ++ ", " ++ toString b ++ ", "
      ++ fmtFixed 2 a ++ ")"
  else
    "#" ++ hex02 r ++ hex02 g ++ hex02 b

/-!  ## Style extraction layer (`figma_mcp.py`) -/

/-- Python `round(x, 4)`: round half to even at four decimal places. -/
def roundTo4 (q : Q) : Q := Q.mk' (roundHalfEven (q.scaleNat 10000)) 10000

/-- One extracted gradient stop (`_extract_gradient_stops` item). -/
structure ExtractedStop where
  position : Q
  color : String
  opacity : Q
  deriving DecidableEq

/-- Embedding of `_extract_gradient_stops` (figma_mcp.py:603-614). -/
def extract_gradient_stops (stops : List GradientStopD) : List ExtractedStop :=
  stops.map fun stop =>
    let color := stop.color.getD {}
    { position := roundTo4 (stop.position.getD 0)
      color := rgba_to_hex color
      opacity := color.a.getD 1 }

/-- Extracted gradient payload of a stroke layer. -/
structure GradientData where
  type : String
  stops : List ExtractedStop
  handlePositions : List Vec2
  deriving DecidableEq

/-- One entry of the `colors` list built by `_extract_stroke_data`. -/
structure StrokeColorData where
  type : String
  opacity : Q
  blendMode : String
  color : Option String := none
  gradient : Option GradientData := none
  deriving DecidableEq

/-- The record returned by `_extract_stroke_data`. -/
structure StrokeData where
  colors : List StrokeColorData
  weight : Q
  align : String
  cap : String
  join : String
  miterLimit : Q
  dashes : List Q
  dashCap : String
  deriving DecidableEq

/-- Embedding of `_extract_stroke_data` (figma_mcp.py:660-696): `none` when the
node has no `strokes` list or an empty one, otherwise the normalized stroke
record with every missing attribute defaulted. -/
def extract_stroke_data (node : Node) : Option StrokeData :=
  let strokes := node.strokes.getD []
  if strokes = [] then none
  else
    some
      { colors :=
          strokes.filterMap fun stroke =>
            if stroke.visible.getD true then
              let stype := stroke.type.getD "SOLID"
              some
                { type := stype
                  opacity := stroke.opacity.getD 1
                  blendMode := stroke.blendMode.getD "NORMAL"
                  color :=
                    if stype = "SOLID" then some (rgba_to_hex (stroke.color.getD {}))
                    else none
                  gradient :=
                    if strStartsWith stype "GRADIENT_" then
                      some
                        { type := strDrop stype 9
                          stops := extract_gradient_stops (stroke.gradientStops.getD [])
                          handlePositions := stroke.gradientHandlePositions.getD [] }
                    else none }
            else none
        weight := node.strokeWeight.getD 1
        align := node.strokeAlign.getD "INSIDE"
        cap := node.strokeCap.getD "NONE"
        join := node.strokeJoin.getD "MITER"
        miterLimit := node.strokeMiterLimit.getD 4
        dashes := node.strokeDashes.getD []
        dashCap := node.strokeDashCap.getD "NONE" }

/-- The record returned by `_extract_corner_radii`. -/
structure CornerRadiiData where
  topLeft : Q
  topRight : Q
  bottomRight : Q
  bottomLeft : Q
  isUniform : Bool
  deriving DecidableEq

/-- Embedding of `_extract_corner_radii` (figma_mcp.py:699-723): per-corner
radii win over the single `cornerRadius`; uniformity of the four-value form is
`len(set(radii)) == 1`. -/
def extract_corner_radii (node : Node) : Option CornerRadiiData :=
  match node.rectangleCornerRadii with
  | some radii =>
      some
        { topLeft := radii.getD 0 0
          topRight := radii.getD 1 0
          bottomRight := radii.getD 2 0
          bottomLeft := radii.getD 3 0
          isUniform := radii.dedup.length == 1 }
  | none =>
      let cr := node.cornerRadius.getD 0
      if cr = 0 then none
      else some { topLeft := cr, topRight := cr, bottomRight := cr, bottomLeft := cr, isUniform := true }

/-- A shadow record built by `_extract_effects_data` (offset flattened). -/
structure ShadowData where
  type : String
  color : String
  offsetX : Q
  offsetY : Q
  radius : Q
  spread : Q
  blendMode : String
  showShadowBehindNode : Bool
  deriving DecidableEq

/-- A blur record built by `_extract_effects_data`. -/
structure BlurData where
  type : String
  radius : Q
  deriving DecidableEq

/-- The record returned by `_extract_effects_data`; empty partitions are
returned as `None` in the source. -/
structure EffectsData where
  shadows : Option (List ShadowData)
  blurs : Option (List BlurData)
  deriving DecidableEq

/-- Embedding of `_extract_effects_data` (figma_mcp.py:801-838): partitions the
visible effects into shadows and blurs, defaulting every missing attribute. -/
def extract_effects_data (node : Node) : EffectsData :=
  let effects := node.effects.getD []
  let shadows :=
    effects.filterMap fun e =>
      if e.visible.getD true then
        let t := e.type.getD ""
        if t = "DROP_SHADOW" ∨ t = "INNER_SHADOW" then
          let color := e.color.getD {}
          let offset := e.offset.getD { x := some 0, y := some 0 }
          some
            { type := t
              color := rgba_to_hex color
              offsetX := offset.x.getD 0
              offsetY := offset.y.getD 0
              radius := e.radius.getD 0
              spread := e.spread.getD 0
              blendMode := e.blendMode.getD "NORMAL"
              showShadowBehindNode := e.showShadowBehindNode.getD false }
        else none
      else none
  let blurs :=
    effects.filterMap fun e =>
      if e.visible.getD true then
        let t := e.type.getD ""
        if t = "LAYER_BLUR" ∨ t = "BACKGROUND_BLUR" then
          some ({ type := t, radius := e.radius.getD 0 } : BlurData)
        else none
      else none
  { shadows := if shadows = [] then none else some shadows
    blurs := if blurs = [] then none else some blurs }

/-!  ## Shared list lemmas -/

/-- Entries rejected by the guard contribute nothing to a `filterMap`. -/
theorem filterMap_filter_of_none {α β : Type} (f : α → Option β) (p : α → Bool)
    (h : ∀ a, p a = false → f a = none) :
    ∀ l : List α, (l.filter p).filterMap f = l.filterMap f := by
  intro l
  induction l with
  | nil => rfl
  | cons a t ih =>
    by_cases hp : p a = true
    · simp [List.filter_cons, hp, List.filterMap_cons, ih]
    · have hn := h a (by simpa using hp)
      simp [List.filter_cons, hp, List.filterMap_cons, hn, ih]

/-- A `filterMap` whose success exactly matches a predicate has the length of
the corresponding `filter`. -/
theorem length_filterMap_eq_length_filter {α β : Type} (f : α → Option β) (p : α → Bool)
    (h : ∀ a, (f a).isSome = p a) :
    ∀ l : List α, (l.filterMap f).length = (l.filter p).length := by
  intro l
  induction l with
  | nil => rfl
  | cons a t ih =>
    have ha := h a
    cases hfa : f a with
    | none =>
      rw [hfa] at ha
      simp [List.filterMap_cons, hfa, List.filter_cons, ← ha, ih]
    | some b =>
      rw [hfa] at ha
      simp [List.filterMap_cons, hfa, List.filter_cons, ← ha, ih]

/-!  ## Claim C1 -/

/-- C1: the claim states that for `a < 1` the hex conversion returns an
8-hex-digit `#`-prefixed string and never an `rgba(...)` string.  Evaluating
the embedded `_rgba_to_hex` at the failing input `r=1, g=0, b=0, a=0.5`
shows the source returns exactly the `rgba(...)` form (no `#` anywhere in the
output), while the opaque input `a=1` does produce the 6-digit hex form. -/
theorem C1_rgba_to_hex_translucent_is_rgba :
    rgba_to_hex { r := some 1, g := some 0, b := some 0, a := some ⟨1, 2⟩ }
        = "rgba(255, 0, 0, 0.50)" ∧
    ¬ strHasSub (rgba_to_hex { r := some 1, g := some 0, b := some 0, a := some ⟨1, 2⟩ }) "#" ∧
    rgba_to_hex { r := some 1, g := some 0, b := some 0, a := some 1 } = "#ff0000" := by
  refine ⟨by decide, by decide, by decide⟩

/-!  ## Claim C8 -/

/-- C8: the style-extraction functions are total over raw nodes (every
attribute of the embedded `Node` is optional and the functions are defined for
all of them — the embedding of "never raises on a missing key"), they
substitute the documented defaults for absent attributes (stroke weight 1,
align INSIDE, empty dash list; no corner record without radii), and they drop
entries marked `visible=false` (stroke layers are filtered, and filtering the
invisible effects away does not change the extraction result). -/
theorem C8_extraction_total_defaults :
    (∀ node : Node, node.strokes = none → extract_stroke_data node = none) ∧
    (∀ (node : Node) (ss : List Paint),
        node.strokes = some ss → ss ≠ [] →
        node.strokeWeight = none → node.strokeAlign = none → node.strokeDashes = none →
        ∃ r, extract_stroke_data node = some r ∧
          r.weight = 1 ∧ r.align = "INSIDE" ∧ r.dashes = [] ∧
          r.colors.length = (ss.filter (fun s => s.visible.getD true)).length) ∧
    (∀ node : Node, node.rectangleCornerRadii = none → node.cornerRadius = none →
        extract_corner_radii node = none) ∧
    (∀ (node : Node) (c : Q), node.rectangleCornerRadii = none → node.cornerRadius = some c →
        c ≠ 0 →
        extract_corner_radii node
          = some { topLeft := c, topRight := c, bottomRight := c, bottomLeft := c,
                   isUniform := true }) ∧
    (∀ (node : Node) (es : List EffectD), node.effects = some es →
        extract_effects_data node
          = extract_effects_data
              { node with effects := some (es.filter (fun e => e.visible.getD true)) }) := by
  refine ⟨?_, ?_, ?_, ?_, ?_⟩
  · intro node h
    simp [extract_stroke_data, h]
  · intro node ss hss hne hw ha hd
    simp only [extract_stroke_data, hss, hw, ha, hd, Option.getD_some, Option.getD_none]
    rw [if_neg hne]
    exact ⟨_, rfl, rfl, rfl, rfl,
      length_filterMap_eq_length_filter _ _
        (fun s => by by_cases h : s.visible.getD true <;> simp [h]) ss⟩
  · intro node h1 h2
    simp [extract_corner_radii, h1, h2]
  · intro node c h1 h2 hc
    simp [extract_corner_radii, h1, h2, hc]
  · intro node es hes
    have hshadow :
        ∀ (f : EffectD → Option ShadowData),
          (∀ e, e.visible.getD true = false → f e = none) →
          (es.filter (fun e => e.visible.getD true)).filterMap f = es.filterMap f :=
      fun f hf => filterMap_filter_of_none f _ hf es
    simp only [extract_effects_data, hes, Option.getD_some]
    rw [filterMap_filter_of_none _ _ (fun e he => by simp [he]) es,
        filterMap_filter_of_none _ _ (fun e he => by simp [he]) es]

/-- C8 witness: the extraction conclusions instantiated at concrete nodes,
obtained by applying `C8_extraction_total_defaults` itself. -/
theorem C8_extraction_total_defaults_witness :
    extract_stroke_data ({} : Node) = none ∧
    (∃ r, extract_stroke_data { strokes := some [{}] } = some r ∧
        r.weight = 1 ∧ r.align = "INSIDE" ∧ r.dashes = [] ∧
        r.colors.length = (([({} : Paint)]).filter (fun s => s.visible.getD true)).length) ∧
    extract_corner_radii ({} : Node) = none ∧
    extract_corner_radii { cornerRadius := some 5 }
      = some { topLeft := 5, topRight := 5, bottomRight := 5, bottomLeft := 5,
               isUniform := true } ∧
    extract_effects_data { effects := some [{ type := some "DROP_SHADOW", visible := some false }] }
      = extract_effects_data
          { effects :=
              some (([({ type := some "DROP_SHADOW", visible := some false } : EffectD)]).filter
                (fun e => e.visible.getD true)) } :=
  ⟨C8_extraction_total_defaults.1 {} rfl,
   C8_extraction_total_defaults.2.1 { strokes := some [{}] } [{}] rfl (by decide) rfl rfl rfl,
   C8_extraction_total_defaults.2.2.1 {} rfl rfl,
   C8_extraction_total_defaults.2.2.2.1 { cornerRadius := some 5 } 5 rfl rfl (by decide),
   C8_extraction_total_defaults.2.2.2.2 _ _ rfl⟩

/-!  ## Color/value conversion helpers (`figma_mcp.py`) -/

/-- Python `round(x, 2)`: round half to even at two decimal places. -/
def roundTo2 (q : Q) : Q := Q.mk' (roundHalfEven (q.scaleNat 100)) 100

/-- Absolute value of a rational (Python `abs`). -/
def absQ (q : Q) : Q := if q < 0 then -q else q

/-- The hardcoded π approximation `3.14159265359` used by `_transform_to_css`. -/
def pyPi : Q := Q.mk' 314159265359 100000000000

/-- Embedding of `_calculate_gradient_angle` (figma_mcp.py:584-600): with
fewer than two handles the angle is 0, otherwise `round(90 - θ, 2)` where the
source computes `θ = degrees(atan2(dy, dx))`.  `atan2` is transcendental, so
`θ` is embedded exactly for axis-aligned directions and as 0 for the remaining
directions; no theorem below consumes a non-axis-aligned angle. -/
def atan2Deg (dy dx : Q) : Q :=
  if dy = 0 then (if 0 ≤ dx then 0 else 180)
  else if dx = 0 then (if 0 < dy then 90 else -90)
  else 0

/-- Embedding of the handle-difference part of `_calculate_gradient_angle`. -/
def calculate_gradient_angle (handles : List Vec2) : Q :=
  match handles with
  | h0 :: h1 :: _ =>
      let dx := h1.x.getD 0 - h0.x.getD 0
      let dy := h1.y.getD 0 - h0.y.getD 0
      roundTo2 (90 - atan2Deg dy dx)
  | _ => 0

/-- Embedding of `_gradient_to_css` (figma_mcp.py:886-932). -/
def gradient_to_css (fill : Paint) : Option String :=
  let ftype := fill.type.getD ""
  if ¬ strHasSub ftype "GRADIENT" then none
  else
    let stops := fill.gradientStops.getD []
    if stops = [] then none
    else
      let stopsCss := stops.map fun stop =>
        let color := stop.color.getD {}
        let position := stop.position.getD 0
        let alpha := color.a.getD 1
        let pct := toString (ratTrunc (position * 100)) ++ "%"
        if alpha < 1 then
          "rgba(" ++ toString (ratTrunc (color.r.getD 0 * 255)) ++ ", "
            ++ toString (ratTrunc (color.g.getD 0 * 255)) ++ ", "
            ++ toString (ratTrunc (color.b.getD 0 * 255)) ++ ", "
            ++ fmtFixed 2 alpha ++ ") " ++ pct
        else rgba_to_hex color ++ " " ++ pct
      let stopsStr := joinSep ", " stopsCss
      if ftype = "GRADIENT_LINEAR" then
        let handles := fill.gradientHandlePositions.getD []
        let angle := calculate_gradient_angle handles
        some ("linear-gradient(" ++ toString (ratTrunc angle) ++ "deg, " ++ stopsStr ++ ")")
      else if ftype = "GRADIENT_RADIAL" then
        some ("radial-gradient(circle, " ++ stopsStr ++ ")")
      else if ftype = "GRADIENT_ANGULAR" then
        some ("conic-gradient(" ++ stopsStr ++ ")")
      else if ftype = "GRADIENT_DIAMOND" then
        some ("radial-gradient(ellipse, " ++ stopsStr ++ ")")
      else none

/-- The fill-scanning loop of `_get_background_css` (figma_mcp.py:1012-1051):
returns at the first visible fill it can render. -/
def background_css_of_fills : List Paint → Option String × Option String
  | [] => (none, none)
  | fill :: rest =>
    if fill.visible.getD true = false then background_css_of_fills rest
    else
      let ftype := fill.type.getD ""
      if ftype = "SOLID" then
        let color := fill.color.getD {}
        let opacity := fill.opacity.getD 1
        if opacity < 1 then
          (some ("rgba(" ++ toString (ratTrunc (color.r.getD 0 * 255)) ++ ", "
              ++ toString (ratTrunc (color.g.getD 0 * 255)) ++ ", "
              ++ toString (ratTrunc (color.b.getD 0 * 255)) ++ ", "
              ++ fmtFixed 2 opacity ++ ")"), some "color")
        else (some (rgba_to_hex color), some "color")
      else if strHasSub ftype "GRADIENT" then
        match gradient_to_css fill with
        | some css => (some css, some "gradient")
        | none => background_css_of_fills rest
      else if ftype = "IMAGE" then
        (some ("/* Image: " ++ fill.imageRef.getD "" ++ " */"), some "image")
      else background_css_of_fills rest

/-- Embedding of `_get_background_css` (figma_mcp.py:1012-1051). -/
def get_background_css (node : Node) : Option String × Option String :=
  background_css_of_fills (node.fills.getD [])

/-- Embedding of `_corner_radii_to_css` (figma_mcp.py:934-951). -/
def corner_radii_to_css (node : Node) : String :=
  let fallback :=
    let cr := node.cornerRadius.getD 0
    if cr = 0 then "" else toString (ratTrunc cr) ++ "px"
  match node.rectangleCornerRadii with
  | some radii =>
      if radii.length = 4 then
        let tl := radii.getD 0 0
        let tr := radii.getD 1 0
        let br := radii.getD 2 0
        let bl := radii.getD 3 0
        if tl = tr ∧ tr = br ∧ br = bl then toString (ratTrunc tl) ++ "px"
        else toString (ratTrunc tl) ++ "px " ++ toString (ratTrunc tr) ++ "px "
          ++ toString (ratTrunc br) ++ "px " ++ toString (ratTrunc bl) ++ "px"
      else fallback
  | none => fallback

/-- Embedding of the rotation part of `_transform_to_css`
(figma_mcp.py:953-983); the `relativeTransform` scale part is not modelled
(see `Node`). -/
def transform_to_css (node : Node) : Option String :=
  let rotation := node.rotation.getD 0
  let transforms : List String :=
    if rotation = 0 then []
    else
      let angleDeg := -rotation * (180 / pyPi)
      if Q.mk' 1 10 < absQ angleDeg then ["rotate(" ++ fmtFixed 1 angleDeg ++ "deg)"]
      else []
  if transforms = [] then none else some (joinSep " " transforms)

/-- Embedding of `_blend_mode_to_css` (figma_mcp.py:986-1009). -/
def blend_mode_to_css (blendMode : String) : Option String :=
  if blendMode = "DARKEN" then some "darken"
  else if blendMode = "MULTIPLY" then some "multiply"
  else if blendMode = "LINEAR_BURN" then some "color-burn"
  else if blendMode = "COLOR_BURN" then some "color-burn"
  else if blendMode = "LIGHTEN" then some "lighten"
  else if blendMode = "SCREEN" then some "screen"
  else if blendMode = "LINEAR_DODGE" then some "color-dodge"
  else if blendMode = "COLOR_DODGE" then some "color-dodge"
  else if blendMode = "OVERLAY" then some "overlay"
  else if blendMode = "SOFT_LIGHT" then some "soft-light"
  else if blendMode = "HARD_LIGHT" then some "hard-light"
  else if blendMode = "DIFFERENCE" then some "difference"
  else if blendMode = "EXCLUSION" then some "exclusion"
  else if blendMode = "HUE" then some "hue"
  else if blendMode = "SATURATION" then some "saturation"
  else if blendMode = "COLOR" then some "color"
  else if blendMode = "LUMINOSITY" then some "luminosity"
  else none

/-!  ## CSS and JSX shadow, blur and border rendering
(`_generate_css_code` figma_mcp.py:1586-1705, `_recursive_node_to_jsx`
figma_mcp.py:2388-2697) -/

/-- One shadow item of the CSS `box-shadow` list (figma_mcp.py:1657-1665):
INNER_SHADOW gets the `inset ` prefix. -/
def css_shadow_part (shadow : ShadowData) : String :=
  let inset := if shadow.type = "INNER_SHADOW" then "inset " else ""
  inset ++ toString (ratTrunc shadow.offsetX) ++ "px "
    ++ toString (ratTrunc shadow.offsetY) ++ "px "
    ++ toString (ratTrunc shadow.radius) ++ "px "
    ++ toString (ratTrunc shadow.spread) ++ "px " ++ shadow.color

/-- The CSS `box-shadow` declaration built from the extracted shadows. -/
def css_shadow_css (shadows : List ShadowData) : String :=
  "box-shadow: " ++ joinSep ", " (shadows.map css_shadow_part) ++ ";"

/-- The CSS blur declaration loop (figma_mcp.py:1667-1672): LAYER_BLUR emits
`filter`, BACKGROUND_BLUR emits `backdrop-filter`, the last visible blur
winning. -/
def css_blur_css (blurs : List BlurData) : String :=
  blurs.foldl
    (fun acc blur =>
      if blur.type = "LAYER_BLUR" then
        "filter: blur(" ++ toString (ratTrunc blur.radius) ++ "px);"
      else if blur.type = "BACKGROUND_BLUR" then
        "backdrop-filter: blur(" ++ toString (ratTrunc blur.radius) ++ "px);"
      else acc)
    ""

/-- One shadow item of the JSX `boxShadow` list (figma_mcp.py:2418-2425):
unlike the CSS path, no `inset` marker is ever added. -/
def jsx_shadow_part (shadow : ShadowData) : String :=
  toString (ratTrunc shadow.offsetX) ++ "px "
    ++ toString (ratTrunc shadow.offsetY) ++ "px "
    ++ toString (ratTrunc shadow.radius) ++ "px "
    ++ toString (ratTrunc shadow.spread) ++ "px " ++ shadow.color

/-- The JSX `boxShadow` value built from the extracted shadows. -/
def jsx_shadow_css (shadows : List ShadowData) : String :=
  joinSep ", " (shadows.map jsx_shadow_part)

/-- The JSX blur loop (figma_mcp.py:2426-2431): both LAYER_BLUR and
BACKGROUND_BLUR produce the same `blur(...)` value. -/
def jsx_blur_css (blurs : List BlurData) : String :=
  blurs.foldl
    (fun acc blur =>
      if blur.type = "LAYER_BLUR" then
        "blur(" ++ toString (ratTrunc blur.radius) ++ "px)"
      else if blur.type = "BACKGROUND_BLUR" then
        "blur(" ++ toString (ratTrunc blur.radius) ++ "px)"
      else acc)
    ""

/-- The JSX inline-style entry carrying the blur (figma_mcp.py:2652-2654):
always the `filter` property, never `backdropFilter`. -/
def jsx_blur_entry (blurCss : String) : Option String :=
  if blurCss = "" then none else some ("filter: '" ++ blurCss ++ "'")

/-- The first-solid-stroke color string computed by `_recursive_node_to_jsx`
(figma_mcp.py:2404-2412). -/
def jsx_stroke_color (node : Node) : String :=
  match extract_stroke_data node with
  | some sd =>
    match sd.colors with
    | first :: _ => if first.type = "SOLID" then first.color.getD "" else ""
    | [] => ""
  | none => ""

/-- The stroke weight computed by `_recursive_node_to_jsx`. -/
def jsx_stroke_weight (node : Node) : Q :=
  match extract_stroke_data node with
  | some sd => sd.weight
  | none => 0

/-- The JSX inline-style border entry (figma_mcp.py:2640-2644): always the
literal `solid` style, whatever the dash pattern. -/
def jsx_border_entry (node : Node) : Option String :=
  let c := jsx_stroke_color node
  let w := jsx_stroke_weight node
  if c ≠ "" ∧ w ≠ 0 then
    some ("border: '" ++ fmtPyNum w ++ "px solid " ++ c ++ "'")
  else none

/-- The CSS border declaration of `_generate_css_code` (figma_mcp.py:1601-1609):
always the literal `solid` style, whatever the dash pattern. -/
def css_stroke_css (node : Node) : String :=
  match extract_stroke_data node with
  | none => ""
  | some sd =>
    match sd.colors with
    | [] => ""
    | first :: _ =>
      if first.type = "SOLID" then
        "border: " ++ fmtPyNum sd.weight ++ "px solid " ++ first.color.getD "" ++ ";"
      else ""

/-!  ## Claims C3, C4, C5: concrete nodes from the repository test fixtures -/

/-- The `node_with_dashed_stroke` fixture of `src/tests/conftest.py`. -/
def nodeWithDashedStroke : Node :=
  { type := some "RECTANGLE"
    absoluteBoundingBox := some { x := some 0, y := some 0, width := some 200, height := some 100 }
    fills := some [{ type := some "SOLID", visible := some true,
                     color := some { r := some 1, g := some 1, b := some 1, a := some 1 },
                     opacity := some 1 }]
    strokes := some [{ type := some "SOLID", visible := some true,
                       color := some { r := some 0, g := some 0, b := some 0, a := some 1 },
                       opacity := some 1 }]
    strokeWeight := some 2
    strokeAlign := some "INSIDE"
    strokeDashes := some [5, 3]
    effects := some [] }

/-- The `node_with_background_blur` fixture of `src/tests/conftest.py`. -/
def nodeWithBackgroundBlur : Node :=
  { type := some "RECTANGLE"
    absoluteBoundingBox := some { x := some 0, y := some 0, width := some 200, height := some 100 }
    fills := some [{ type := some "SOLID", visible := some true,
                     color := some { r := some 1, g := some 1, b := some 1, a := some ⟨1, 2⟩ },
                     opacity := some ⟨1, 2⟩ }]
    strokes := some []
    effects := some [{ type := some "BACKGROUND_BLUR", visible := some true, radius := some 10 }] }

/-- The `node_with_inner_shadow` fixture of `src/tests/conftest.py`. -/
def nodeWithInnerShadow : Node :=
  { type := some "RECTANGLE"
    absoluteBoundingBox := some { x := some 0, y := some 0, width := some 200, height := some 100 }
    fills := some [{ type := some "SOLID", visible := some true,
                     color := some { r := some 1, g := some 1, b := some 1, a := some 1 },
                     opacity := some 1 }]
    strokes := some []
    effects := some [{ type := some "INNER_SHADOW", visible := some true,
                       radius := some 4, spread := some 0,
                       color := some { r := some 0, g := some 0, b := some 0, a := some ⟨1, 4⟩ },
                       offset := some { x := some 0, y := some 2 } }] }

/-- The shadow record the extraction layer produces for the inner-shadow
fixture. -/
def innerShadowR : ShadowData :=
  { type := "INNER_SHADOW", color := "rgba(0, 0, 0, 0.25)",
    offsetX := 0, offsetY := 2, radius := 4, spread := 0,
    blendMode := "NORMAL", showShadowBehindNode := false }

/-- The same shadow with type DROP_SHADOW, for comparison. -/
def dropShadowR : ShadowData :=
  { type := "DROP_SHADOW", color := "rgba(0, 0, 0, 0.25)",
    offsetX := 0, offsetY := 2, radius := 4, spread := 0,
    blendMode := "NORMAL", showShadowBehindNode := false }

/-- C3: on the repository's own `node_with_background_blur` fixture, the JSX
renderer produces the value `blur(10px)` — byte-identical to what it produces
for a LAYER_BLUR of the same radius — and places it under the `filter`
style property, whereas the claim (and `src/tests/test_generators.py`,
`TestBackdropBlur`) requires a distinct backdrop modifier for BACKGROUND_BLUR.
The CSS generator in the same file does make the distinction. -/
theorem C3_jsx_blur_conflates_blur_kinds :
    (extract_effects_data nodeWithBackgroundBlur).blurs
        = some [{ type := "BACKGROUND_BLUR", radius := 10 }] ∧
    jsx_blur_css [{ type := "BACKGROUND_BLUR", radius := 10 }] = "blur(10px)" ∧
    jsx_blur_css [{ type := "BACKGROUND_BLUR", radius := 10 }]
        = jsx_blur_css [{ type := "LAYER_BLUR", radius := 10 }] ∧
    jsx_blur_entry (jsx_blur_css [{ type := "BACKGROUND_BLUR", radius := 10 }])
        = some "filter: 'blur(10px)'" ∧
    css_blur_css [{ type := "BACKGROUND_BLUR", radius := 10 }] = "backdrop-filter: blur(10px);" ∧
    css_blur_css [{ type := "LAYER_BLUR", radius := 10 }] = "filter: blur(10px);" := by
  decide

/-- C4: on the repository's own `node_with_dashed_stroke` fixture (non-empty
dash pattern `[5, 3]`), both the CSS generator and the JSX renderer emit a
literal `solid` border declaration and no dashed marker, whereas the claim
(and `src/tests/test_generators.py`, `TestDashedBorder`) requires a dashed
style whenever the dash pattern is non-empty. -/
theorem C4_css_jsx_border_always_solid :
    (extract_stroke_data nodeWithDashedStroke).map StrokeData.dashes = some [5, 3] ∧
    css_stroke_css nodeWithDashedStroke = "border: 2px solid #000000;" ∧
    ¬ strHasSub (css_stroke_css nodeWithDashedStroke) "dashed" ∧
    jsx_border_entry nodeWithDashedStroke = some "border: '2px solid #000000'" ∧
    ¬ strHasSub ((jsx_border_entry nodeWithDashedStroke).getD "") "dashed" := by
  decide

/-- C5: on the repository's own `node_with_inner_shadow` fixture, the JSX
renderer's shadow value carries no `inset` marker and is byte-identical to the
rendering of a DROP_SHADOW with the same parameters, whereas the claim (and
`src/tests/test_generators.py`, `TestInnerShadow`) requires an inset marker
for every INNER_SHADOW.  The CSS generator in the same file does emit the
`inset` marker. -/
theorem C5_jsx_inner_shadow_lacks_inset :
    (extract_effects_data nodeWithInnerShadow).shadows = some [innerShadowR] ∧
    css_shadow_css [innerShadowR] = "box-shadow: inset 0px 2px 4px 0px rgba(0, 0, 0, 0.25);" ∧
    strHasSub (css_shadow_css [innerShadowR]) "inset" ∧
    jsx_shadow_css [innerShadowR] = "0px 2px 4px 0px rgba(0, 0, 0, 0.25)" ∧
    ¬ strHasSub (jsx_shadow_css [innerShadowR]) "inset" ∧
    jsx_shadow_css [innerShadowR] = jsx_shadow_css [dropShadowR] := by
  decide

/-!  ## Claim C9: the CSS generator entry point (`_generate_css_code`,
figma_mcp.py:1586-1705) -/

/-- The `justify_map.get(_, 'flex-start')` lookup of the auto-layout block. -/
def justify_map_get (s : String) : String :=
  if s = "MIN" then "flex-start"
  else if s = "CENTER" then "center"
  else if s = "MAX" then "flex-end"
  else if s = "SPACE_BETWEEN" then "space-between"
  else "flex-start"

/-- The `items_map.get(_, 'flex-start')` lookup of the auto-layout block. -/
def items_map_get (s : String) : String :=
  if s = "MIN" then "flex-start"
  else if s = "CENTER" then "center"
  else if s = "MAX" then "flex-end"
  else "flex-start"

/-- Embedding of `_generate_css_code` (figma_mcp.py:1586-1705).  The source
reads `width = bbox.get('width', 'auto')` and later runs `int(width)`, which
raises `ValueError` whenever the bounding box or one of its dimensions is
absent; that raising path is the `none` result here. -/
def generate_css_code (node : Node) (componentName : String) : Option String :=
  let bbox := node.absoluteBoundingBox.getD {}
  let bg := get_background_css node
  let bgCss :=
    match bg.1, bg.2 with
    | some v, some t =>
        if t = "color" then "background-color: " ++ v ++ ";"
        else if t = "gradient" then "background: " ++ v ++ ";"
        else ""
    | _, _ => ""
  let strokeCss := css_stroke_css node
  let cornerRadiusCss := corner_radii_to_css node
  let radiusCss := if cornerRadiusCss = "" then "" else "border-radius: " ++ cornerRadiusCss ++ ";"
  let transformLine :=
    match transform_to_css node with
    | some t => "transform: " ++ t ++ ";"
    | none => ""
  let blendLine :=
    match blend_mode_to_css (node.blendMode.getD "PASS_THROUGH") with
    | some b => "mix-blend-mode: " ++ b ++ ";"
    | none => ""
  let opacity := node.opacity.getD 1
  let opacityCss := if opacity < 1 then "opacity: " ++ fmtPyNum opacity ++ ";" else ""
  let layoutMode := node.layoutMode.getD ""
  let layoutCss :=
    if layoutMode = "" then ""
    else
      let direction := if layoutMode = "VERTICAL" then "column" else "row"
      let gap := node.itemSpacing.getD 0
      let pt := node.paddingTop.getD 0
      let pr := node.paddingRight.getD 0
      let pb := node.paddingBottom.getD 0
      let pl := node.paddingLeft.getD 0
      "display: flex;\n  flex-direction: " ++ direction ++ ";\n  gap: "
        ++ fmtPyNum gap ++ "px;\n  padding: " ++ fmtPyNum pt ++ "px " ++ fmtPyNum pr ++ "px "
        ++ fmtPyNum pb ++ "px " ++ fmtPyNum pl ++ "px;\n  justify-content: "
        ++ justify_map_get (node.primaryAxisAlignItems.getD "MIN") ++ ";\n  align-items: "
        ++ items_map_get (node.counterAxisAlignItems.getD "MIN") ++ ";"
  let effectsData := extract_effects_data node
  let shadowCss :=
    match effectsData.shadows with
    | some shadows => css_shadow_css shadows
    | none => ""
  let blurCss :=
    match effectsData.blurs with
    | some blurs => css_blur_css blurs
    | none => ""
  match bbox.width, bbox.height with
  | some w, some h =>
      let cssLines :=
        ["width: " ++ toString (ratTrunc w) ++ "px;",
         "height: " ++ toString (ratTrunc h) ++ "px;"]
        ++ (if bgCss ≠ "" then [bgCss] else [])
        ++ (if strokeCss ≠ "" then [strokeCss] else [])
        ++ (if radiusCss ≠ "" then [radiusCss] else [])
        ++ (if transformLine ≠ "" then [transformLine] else [])
        ++ (if blendLine ≠ "" then [blendLine] else [])
        ++ (if opacityCss ≠ "" then [opacityCss] else [])
        ++ (if shadowCss ≠ "" then [shadowCss] else [])
        ++ (if blurCss ≠ "" then [blurCss] else [])
        ++ (if layoutCss ≠ "" then [layoutCss] else [])
      let cssContent := joinSep "\n  " cssLines
      some ("." ++ pyLower componentName ++ " \x7b\n  " ++ cssContent ++ "\n\x7d")
  | _, _ => none

/-- C9: the claim states the CSS generator returns a string without raising
for every node tree, including nodes with no bounding box.  On the node with
no `absoluteBoundingBox` the source instead runs `int('auto')` and raises
`ValueError` (the `none` result of the embedding); with a bounding box present
the same pipeline does return the assembled stylesheet string. -/
theorem C9_css_generator_raises_without_bbox :
    generate_css_code {} "Card" = none ∧
    generate_css_code { absoluteBoundingBox := some { width := some 200, height := some 100 } }
        "Card"
      = some ".card \x7b\n  width: 200px;\n  height: 100px;\n\x7d" ∧
    generate_css_code nodeWithInnerShadow "Card"
      = some (".card \x7b\n  width: 200px;\n  height: 100px;\n  background-color: #ffffff;\n  "
          ++ "box-shadow: inset 0px 2px 4px 0px rgba(0, 0, 0, 0.25);\n\x7d") := by
  refine ⟨by decide, by decide, by decide⟩

/-!  ## Claim C10: component-name sanitization (`figma_generate_code`,
figma_mcp.py:3632-3636) -/

/-- Embedding of Python `str.title()` for ASCII strings: a letter is
upper-cased after a non-cased character and lower-cased after a cased one. -/
def pyTitleAux : Bool → List Char → List Char
  | _, [] => []
  | prevCased, c :: rest =>
      if c.isAlpha then
        (if prevCased then c.toLower else c.toUpper) :: pyTitleAux true rest
      else c :: pyTitleAux false rest

/-- Python `s.title()`. -/
def pyTitle (s : String) : String := String.mk (pyTitleAux false s.toList)

/-- Embedding of the component-name sanitization of `figma_generate_code`
(figma_mcp.py:3632-3636): title-case, strip every non-alphanumeric character
(`re.sub(r'[^a-zA-Z0-9]', '', …)`), then prefix `Component` when the first
character is not a letter.  When the stripped string is empty the source
indexes `component_name[0]` and raises `IndexError`; that path is `none`. -/
def sanitize_component_name (name : String) : Option String :=
  let stripped := (pyTitle name).toList.filter (fun c => c.isAlpha || c.isDigit)
  match stripped with
  | [] => none
  | c :: _ =>
      if c.isAlpha then some (String.mk stripped)
      else some ("Component" ++ String.mk stripped)

/-- C10: the claim states the sanitization always yields, without raising, an
identifier starting with a letter.  On a name with no alphanumeric character
the source raises `IndexError` instead (the `none` result); names that do
keep a character are handled as the claim says, including the digit-prefix
case. -/
theorem C10_sanitize_raises_on_symbol_only_name :
    sanitize_component_name "***" = none ∧
    sanitize_component_name "My button!" = some "MyButton" ∧
    sanitize_component_name "9lives" = some "Component9Lives" := by
  refine ⟨rfl, by decide, by decide⟩

/-!  ## Claim C6: SwiftUI radial-gradient radius -/

/-- Modelled from the spec: the dataclass `ColorValue` lives in
`generators/base.py`, which is absent from src/; fields per spec section 3
(`r,g,b` in [0,1], alpha defaulting to 1). -/
structure ColorValue where
  r : Q
  g : Q
  b : Q
  a : Q := 1
  deriving DecidableEq

/-- Modelled from the spec: the dataclass `GradientStop` of the absent
`generators/base.py` (color plus position in [0,1]). -/
structure GradientStop where
  color : ColorValue
  position : Q
  deriving DecidableEq

/-- Modelled from the spec: the dataclass `GradientDef` of the absent
`generators/base.py` (type, ordered stops, handle positions, opacity
defaulting to 1). -/
structure GradientDef where
  type : String
  stops : List GradientStop
  handle_positions : List Vec2 := []
  opacity : Q := 1
  deriving DecidableEq

/-- The `to_unit_point` helper of `_gradient_direction_swiftui`
(generators/swiftui_generator.py:157-175). -/
def to_unit_point (x y : Q) : String :=
  if x ≤ Q.mk' 1 5 ∧ y ≤ Q.mk' 1 5 then ".topLeading"
  else if Q.mk' 4 5 ≤ x ∧ y ≤ Q.mk' 1 5 then ".topTrailing"
  else if x ≤ Q.mk' 1 5 ∧ Q.mk' 4 5 ≤ y then ".bottomLeading"
  else if Q.mk' 4 5 ≤ x ∧ Q.mk' 4 5 ≤ y then ".bottomTrailing"
  else if y ≤ Q.mk' 1 5 then ".top"
  else if Q.mk' 4 5 ≤ y then ".bottom"
  else if x ≤ Q.mk' 1 5 then ".leading"
  else if Q.mk' 4 5 ≤ x then ".trailing"
  else ".center"

/-- Embedding of `_gradient_direction_swiftui`
(generators/swiftui_generator.py:157-175). -/
def gradient_direction_swiftui (handles : List Vec2) : String × String :=
  match handles with
  | h0 :: h1 :: _ =>
      (to_unit_point (h0.x.getD 0) (h0.y.getD 0), to_unit_point (h1.x.getD 1) (h1.y.getD 0))
  | _ => (".leading", ".trailing")

/-- The SwiftUI color literal built for a gradient stop or solid fill
(`Color(red: …, green: …, blue: …)` with `.opacity(…)` appended when
translucent). -/
def swiftui_color_code (c : ColorValue) : String :=
  let base := "Color(red: " ++ fmtFixed 3 c.r ++ ", green: " ++ fmtFixed 3 c.g
    ++ ", blue: " ++ fmtFixed 3 c.b ++ ")"
  if c.a < 1 then base ++ ".opacity(" ++ fmtFixed 2 c.a ++ ")" else base

/-- Embedding of `_gradient_to_swiftui` (generators/swiftui_generator.py:113-155).
The RADIAL and DIAMOND branches hardcode `endRadius: 200`; the function takes
no node dimensions at all. -/
def gradient_to_swiftui (gradient : GradientDef) : String × String :=
  let stopsCode := gradient.stops.map fun stop =>
    ".init(color: " ++ swiftui_color_code stop.color ++ ", location: "
      ++ fmtFixed 4 stop.position ++ ")"
  let stopsStr := joinSep ", " stopsCode
  let code? : Option String :=
    if gradient.type = "LINEAR" then
      let d := gradient_direction_swiftui gradient.handle_positions
      some ("LinearGradient(stops: [" ++ stopsStr ++ "], startPoint: " ++ d.1
        ++ ", endPoint: " ++ d.2 ++ ")")
    else if gradient.type = "RADIAL" then
      some ("RadialGradient(stops: [" ++ stopsStr
        ++ "], center: .center, startRadius: 0, endRadius: 200)")
    else if gradient.type = "ANGULAR" then
      some ("AngularGradient(stops: [" ++ stopsStr ++ "], center: .center)")
    else if gradient.type = "DIAMOND" then
      some ("RadialGradient(stops: [" ++ stopsStr
        ++ "], center: .center, startRadius: 0, endRadius: 200)")
    else none
  match code? with
  | none => ("", "")
  | some code =>
      (if gradient.opacity < 1 then code ++ ".opacity(" ++ fmtFixed 2 gradient.opacity ++ ")"
       else code, "")

/-- The `endRadius` expression of the GRADIENT_RADIAL branch of
`_generate_swiftui_code` (figma_mcp.py:1854-1918): `max(width, height) / 2`
with both dimensions defaulting to 100 when absent. -/
def generate_swiftui_radial_end_radius (node : Node) : Q :=
  let bbox := node.absoluteBoundingBox.getD {}
  let width := bbox.width.getD 100
  let height := bbox.height.getD 100
  Q.max width height / 2

/-- The RADIAL gradient of the `node_with_radial_gradient` fixture
(red at 0, blue at 1), as `parse_fills` would hand it to
`_gradient_to_swiftui`. -/
def radialGradientTest : GradientDef :=
  { type := "RADIAL"
    stops := [{ color := { r := 1, g := 0, b := 0 }, position := 0 },
              { color := { r := 0, g := 0, b := 1 }, position := 1 }] }

set_option maxRecDepth 8000 in
/-- C6: the claim states the radial radius is `max(width, height) / 2` when
dimensions are supplied and the fixed 200 when not.  The modular SwiftUI
generator's `_gradient_to_swiftui` takes no dimensions and hardcodes
`endRadius: 200` — on the 300x150 fixture's gradient it emits 200 and never
150, exactly what `src/tests/test_generators.py` `TestRadialGradientRadius`
forbids (the test even calls the function with `node_width`/`node_height`
keywords the src signature does not accept).  The legacy path in
`_generate_swiftui_code` does compute `max(width, height) / 2` (150 and 50 on
the claim's inputs) but defaults missing dimensions to 100, yielding 50 — not
the claimed 200 — when no dimensions are supplied. -/
theorem C6_radial_radius_hardcoded_200_and_default_50 :
    (gradient_to_swiftui radialGradientTest).1
      = "RadialGradient(stops: [.init(color: Color(red: 1.000, green: 0.000, blue: 0.000), "
        ++ "location: 0.0000), .init(color: Color(red: 0.000, green: 0.000, blue: 1.000), "
        ++ "location: 1.0000)], center: .center, startRadius: 0, endRadius: 200)" ∧
    strHasSub (gradient_to_swiftui radialGradientTest).1 "endRadius: 200" ∧
    ¬ strHasSub (gradient_to_swiftui radialGradientTest).1 "endRadius: 150" ∧
    generate_swiftui_radial_end_radius
        { absoluteBoundingBox := some { width := some 300, height := some 150 } } = 150 ∧
    generate_swiftui_radial_end_radius
        { absoluteBoundingBox := some { width := some 100, height := some 100 } } = 50 ∧
    generate_swiftui_radial_end_radius {} = 50 ∧ (50 : Q) ≠ 200 := by
  refine ⟨by decide, by decide, by decide, by decide, by decide, by decide, by decide⟩

/-!  ## Claim C7: multi-fill composition -/

/-- Embedding of Python `f"{n:02X}"` (uppercase). -/
def hex02U (n : ℤ) : String := pyUpper (hex02 n)

/-- Modelled from the spec: the dataclass `FillLayer` of the absent
`generators/base.py` (spec section 3: type, optional color when SOLID,
optional gradient, opacity; invisible layers are excluded before reaching
renderers). -/
structure FillLayer where
  type : String
  color : Option ColorValue := none
  gradient : Option GradientDef := none
  opacity : Q := 1
  deriving DecidableEq

/-- Conversion of a raw color dictionary into the normalized `ColorValue`. -/
def colorValueOfColorD (c : ColorD) : ColorValue :=
  { r := c.r.getD 0, g := c.g.getD 0, b := c.b.getD 0, a := c.a.getD 1 }

/-- Modelled from the spec: `parse_fills` of the absent `generators/base.py`.
Per spec section 4.1 it returns the node's fill layers in order, filtering
`visible=false` entries and normalizing each into a `FillLayer`. -/
def parse_fills (node : Node) : List FillLayer :=
  (node.fills.getD []).filterMap fun fill =>
    if fill.visible.getD true then
      let ftype := fill.type.getD "SOLID"
      some
        { type := ftype
          color := if ftype = "SOLID" then fill.color.map colorValueOfColorD else none
          gradient :=
            if strStartsWith ftype "GRADIENT_" then
              some
                { type := strDrop ftype 9
                  stops := (fill.gradientStops.getD []).map fun s =>
                    { color := colorValueOfColorD (s.color.getD {})
                      position := s.position.getD 0 }
                  handle_positions := fill.gradientHandlePositions.getD []
                  opacity := fill.opacity.getD 1 }
            else none
          opacity := fill.opacity.getD 1 }
    else none

/-- The fall-through of `_fill_layer_to_swiftui`
(generators/swiftui_generator.py:95-111): gradient, then image placeholder,
then nothing. -/
def fill_layer_fallthrough (layer : FillLayer) : String × String :=
  match layer.gradient with
  | some g => gradient_to_swiftui g
  | none =>
      if layer.type = "IMAGE" then ("Color.gray.opacity(0.3) // Image placeholder", "")
      else ("", "")

/-- Embedding of `_fill_layer_to_swiftui` (generators/swiftui_generator.py:95-111). -/
def fill_layer_to_swiftui (layer : FillLayer) : String × String :=
  if layer.type = "SOLID" then
    match layer.color with
    | some c => (swiftui_color_code c, "")
    | none => fill_layer_fallthrough layer
  else fill_layer_fallthrough layer

/-- The accumulation loop of `_swiftui_fill_modifier`
(generators/swiftui_generator.py:66-76): walk the layers bottom-to-top
(`reversed`), keeping non-empty view codes and their gradient definitions. -/
def swiftui_bg_accum (layers : List FillLayer) : List String × List String :=
  layers.reverse.foldl
    (fun acc layer =>
      let cg := fill_layer_to_swiftui layer
      if cg.1 = "" then acc
      else (acc.1 ++ [cg.1], if cg.2 = "" then acc.2 else acc.2 ++ [cg.2]))
    ([], [])

/-- The `bg_parts` list `_swiftui_fill_modifier` stacks for a node. -/
def swiftui_bg_parts (node : Node) : List String :=
  (swiftui_bg_accum (parse_fills node)).1

/-- The final wrapping of `_swiftui_fill_modifier`
(generators/swiftui_generator.py:78-91): nothing, a single `.background`, or a
`ZStack` stacking every kept part. -/
def swiftui_bg_wrap (bgParts gradDefs : List String) : String × String :=
  match bgParts with
  | [] => ("", "")
  | [p] => (".background(" ++ p ++ ")", joinSep "\n" gradDefs)
  | parts =>
      (".background(\n            ZStack \x7b\n                "
        ++ joinSep "\n            " parts ++ "\n            \x7d\n        )",
       joinSep "\n" gradDefs)

/-- Embedding of `_swiftui_fill_modifier` (generators/swiftui_generator.py:53-91). -/
def swiftui_fill_modifier (node : Node) : String × String :=
  match parse_fills node with
  | [] => ("", "")
  | [layer] =>
      let cg := fill_layer_to_swiftui layer
      if cg.1 = "" then ("", "") else (".background(" ++ cg.1 ++ ")", cg.2)
  | a :: b :: rest =>
      let acc := swiftui_bg_accum (a :: b :: rest)
      swiftui_bg_wrap acc.1 acc.2

/-- The background loop of `_generate_kotlin_code` (figma_mcp.py:2131-2180):
the first visible SOLID or gradient fill decides the background and the loop
breaks; later fills are never consulted. -/
def kotlin_bg : List Paint → String
  | [] => ""
  | fill :: rest =>
    if fill.visible.getD true = false then kotlin_bg rest
    else
      let ftype := fill.type.getD ""
      if ftype = "SOLID" then
        let color := fill.color.getD {}
        let a := fill.opacity.getD (color.a.getD 1)
        ".background(Color(0x" ++ hex02U (ratTrunc (a * 255))
          ++ hex02U (ratTrunc (color.r.getD 0 * 255))
          ++ hex02U (ratTrunc (color.g.getD 0 * 255))
          ++ hex02U (ratTrunc (color.b.getD 0 * 255)) ++ "))"
      else if ftype = "GRADIENT_LINEAR" ∨ ftype = "GRADIENT_RADIAL" then
        (if (fill.gradientStops.getD []) = [] then "" else ".background(gradientBrush)")
      else kotlin_bg rest

/-!  ## Infix helpers for join-based outputs -/

/-- Character list of a concatenation. -/
theorem toList_append (a b : String) : (a ++ b).toList = a.toList ++ b.toList := by
  simp [String.toList]

/-- An infix of the right part is an infix of the concatenation. -/
theorem isInfix_append_left {α : Type} (l₁ : List α) {l l₂ : List α} (h : l <:+: l₂) :
    l <:+: l₁ ++ l₂ := by
  obtain ⟨s, t, rfl⟩ := h
  exact ⟨l₁ ++ s, t, by simp⟩

/-- An infix of the left part is an infix of the concatenation. -/
theorem isInfix_append_right {α : Type} {l l₁ : List α} (l₂ : List α) (h : l <:+: l₁) :
    l <:+: l₁ ++ l₂ := by
  obtain ⟨s, t, rfl⟩ := h
  exact ⟨s, t ++ l₂, by simp⟩

/-- Every member of a joined list is a substring of the join. -/
theorem infix_joinSep (sep : String) :
    ∀ (l : List String) (p : String), p ∈ l → p.toList <:+: (joinSep sep l).toList := by
  intro l
  induction l with
  | nil => intro p hp; exact absurd hp (List.not_mem_nil p)
  | cons x xs ih =>
    intro p hp
    cases xs with
    | nil =>
      have : p = x := by simpa using hp
      subst this
      exact List.infix_refl _
    | cons y rest =>
      rcases List.mem_cons.mp hp with rfl | hmem
      · show p.toList <:+: (p ++ sep ++ joinSep sep (y :: rest)).toList
        rw [toList_append, toList_append, List.append_assoc]
        exact (List.prefix_append _ _).isInfix
      · show p.toList <:+: (x ++ sep ++ joinSep sep (y :: rest)).toList
        rw [toList_append, toList_append, List.append_assoc]
        exact isInfix_append_left _ (isInfix_append_left _ (ih p hmem))

/-- Every part of a stacked multi-fill background appears in the wrapped
modifier. -/
theorem swiftui_bg_wrap_contains (gradDefs : List String) :
    ∀ (parts : List String), 2 ≤ parts.length →
      ∀ p ∈ parts, strHasSub (swiftui_bg_wrap parts gradDefs).1 p := by
  intro parts hlen p hp
  rcases parts with _ | ⟨p0, _ | ⟨p1, ps⟩⟩
  · simp at hlen
  · simp at hlen
  · simp only [swiftui_bg_wrap]
    unfold strHasSub
    rw [toList_append, toList_append]
    exact isInfix_append_right _ (isInfix_append_left _ (infix_joinSep _ _ p hp))

/-- A visible solid red fill layer. -/
def redFill : Paint :=
  { type := some "SOLID", visible := some true,
    color := some { r := some 1, g := some 0, b := some 0, a := some 1 } }

/-- A visible solid green fill layer. -/
def greenFill : Paint :=
  { type := some "SOLID", visible := some true,
    color := some { r := some 0, g := some 1, b := some 0, a := some 1 } }

/-- A node carrying two visible solid fills (red under green). -/
def twoFillsNode : Node := { fills := some [redFill, greenFill] }

/-- C7 counterexample: on a node with two visible solid fills, the CSS
background accessor and the Kotlin background loop return only the first
fill's paint; the second visible fill (green) appears nowhere in their
output, contradicting the claim that every renderer composes all visible fill
layers. -/
theorem C7_first_fill_only_counterexample :
    get_background_css twoFillsNode = (some "#ff0000", some "color") ∧
    ¬ strHasSub "#ff0000" "#00ff00" ∧
    kotlin_bg [redFill, greenFill] = ".background(Color(0xFFFF0000))" ∧
    ¬ strHasSub ".background(Color(0xFFFF0000))" "00FF00" := by
  refine ⟨by decide, by decide, by decide, by decide⟩

/-- C7 amended: the SwiftUI generator stacks every kept fill layer (each
`bg_parts` entry occurs verbatim in the emitted `.background(ZStack …)`
modifier whenever at least two layers are kept), while the legacy CSS
background accessor and the Kotlin background loop consult only the first
visible fill: their result on `first :: rest` is independent of `rest`. -/
theorem C7_fill_composition_per_renderer :
    (∀ (f : Paint) (rest rest' : List Paint),
        f.visible.getD true = true → f.type.getD "" = "SOLID" →
        background_css_of_fills (f :: rest) = background_css_of_fills (f :: rest')) ∧
    (∀ (f : Paint) (rest rest' : List Paint),
        f.visible.getD true = true → f.type.getD "" = "SOLID" →
        kotlin_bg (f :: rest) = kotlin_bg (f :: rest')) ∧
    (∀ node : Node, 2 ≤ (swiftui_bg_parts node).length →
        ∀ p ∈ swiftui_bg_parts node, strHasSub (swiftui_fill_modifier node).1 p) := by
  refine ⟨?_, ?_, ?_⟩
  · intro f rest rest' hvis htype
    simp [background_css_of_fills, hvis, htype]
  · intro f rest rest' hvis htype
    simp [kotlin_bg, hvis, htype]
  · intro node hlen p hp
    rcases hfl : parse_fills node with _ | ⟨a, _ | ⟨b, rest⟩⟩
    · rw [swiftui_bg_parts, hfl] at hlen
      simp [swiftui_bg_accum] at hlen
    · rw [swiftui_bg_parts, hfl] at hlen
      have h1 : (swiftui_bg_accum [a]).1.length ≤ 1 := by
        unfold swiftui_bg_accum
        by_cases h : (fill_layer_to_swiftui a).1 = "" <;> simp [h]
      omega
    · have hparts : swiftui_bg_parts node = (swiftui_bg_accum (a :: b :: rest)).1 := by
        rw [swiftui_bg_parts, hfl]
      have hmod : swiftui_fill_modifier node
          = swiftui_bg_wrap (swiftui_bg_accum (a :: b :: rest)).1
              (swiftui_bg_accum (a :: b :: rest)).2 := by
        simp only [swiftui_fill_modifier, hfl]
      rw [hmod]
      exact swiftui_bg_wrap_contains _ _ (hparts ▸ hlen) p (hparts ▸ hp)

/-- C7 witness: the per-renderer composition facts instantiated at the
two-fill node, obtained from `C7_fill_composition_per_renderer` itself. -/
theorem C7_fill_composition_witness :
    background_css_of_fills [redFill, greenFill] = background_css_of_fills [redFill] ∧
    kotlin_bg [redFill, greenFill] = kotlin_bg [redFill] ∧
    strHasSub (swiftui_fill_modifier twoFillsNode).1
      "Color(red: 1.000, green: 0.000, blue: 0.000)" ∧
    strHasSub (swiftui_fill_modifier twoFillsNode).1
      "Color(red: 0.000, green: 1.000, blue: 0.000)" :=
  ⟨C7_fill_composition_per_renderer.1 redFill [greenFill] [] (by decide) (by decide),
   C7_fill_composition_per_renderer.2.1 redFill [greenFill] [] (by decide) (by decide),
   C7_fill_composition_per_renderer.2.2 twoFillsNode (by decide) _ (by decide),
   C7_fill_composition_per_renderer.2.2 twoFillsNode (by decide) _ (by decide)⟩

/-!  ## Claim C2: child caps and truncation markers -/

/-- Modelled from the spec: `MAX_NATIVE_CHILDREN_LIMIT` is imported from
`generators/base.py`, absent from src/; the spec fixes the native cap at 15
and `src/tests/test_generators.py` asserts exactly that value. -/
def MAX_NATIVE_CHILDREN_LIMIT : ℕ := 15

/-- The child-rendering loop of `_swiftui_container_node`
(generators/swiftui_generator.py:622-634): cap check first (emitting the
truncation marker computed from the total child count and breaking), then the
visibility skip, then the child is rendered and counted when its code is
non-empty. -/
def swiftui_children_go (render : Node → String) (pfx : String) (total : ℕ) :
    List Node → ℕ → List String
  | [], _ => []
  | c :: rest, count =>
    if MAX_NATIVE_CHILDREN_LIMIT ≤ count then
      [pfx ++ "    // ... " ++ toString (total - MAX_NATIVE_CHILDREN_LIMIT)
        ++ " more children truncated"]
    else if c.visible.getD true = false then
      swiftui_children_go render pfx total rest count
    else if render c = "" then
      swiftui_children_go render pfx total rest count
    else render c :: swiftui_children_go render pfx total rest (count + 1)

/-- The lines `_swiftui_container_node` emits for a child list, with the
recursive call abstracted as `render`. -/
def swiftui_children_lines (children : List Node) (render : Node → String) (pfx : String) :
    List String :=
  swiftui_children_go render pfx children.length children 0

/-- The child loop of `_recursive_node_to_jsx` (figma_mcp.py:2688-2692):
`for child in children[:20]`, appending every non-empty rendering — no
visibility check and no truncation marker. -/
def jsx_children_lines (children : List Node) (render : Node → String) : List String :=
  (children.take 20).filterMap fun c =>
    let code := render c
    if code = "" then none else some code

/-- The TEXT branch of `_generate_kotlin_children` (figma_mcp.py:2351-2359). -/
def kotlin_text_lines (child : Node) (pfx : String) : List String :=
  let name := child.name.getD "Unknown"
  let text := child.characters.getD name
  let style := child.style.getD {}
  let fontSize := style.fontSize.getD 16
  [pfx ++ "Text(",
   pfx ++ "    text = \"" ++ text ++ "\",",
   pfx ++ "    fontSize = " ++ toString (ratTrunc fontSize) ++ ".sp",
   pfx ++ ")"]

/-- The container/rectangle branch of `_generate_kotlin_children`
(figma_mcp.py:2360-2384).  (The source's second `elif` for RECTANGLE is dead
code: RECTANGLE is already matched by this branch.) -/
def kotlin_box_lines (child : Node) (pfx : String) : List String :=
  let name := child.name.getD "Unknown"
  let bbox := child.absoluteBoundingBox.getD {}
  let w := bbox.width.getD 50
  let h := bbox.height.getD 50
  let bg : Option String :=
    match child.fills.getD [] with
    | fill :: _ =>
        if fill.type = some "SOLID" then
          let color := fill.color.getD {}
          some (".background(Color(0xFF" ++ hex02U (ratTrunc (color.r.getD 0 * 255))
            ++ hex02U (ratTrunc (color.g.getD 0 * 255))
            ++ hex02U (ratTrunc (color.b.getD 0 * 255)) ++ "))")
        else none
    | [] => none
  [pfx ++ "// " ++ name,
   pfx ++ "Box(",
   pfx ++ "    modifier = Modifier",
   pfx ++ "        .width(" ++ toString (ratTrunc w) ++ ".dp)",
   pfx ++ "        .height(" ++ toString (ratTrunc h) ++ ".dp)"]
  ++ (match bg with | some b => [pfx ++ "        " ++ b] | none => [])
  ++ [pfx ++ ")"]

/-- Embedding of `_generate_kotlin_children` (figma_mcp.py:2345-2385):
`for child in children[:10]` with no visibility check and no truncation
marker; unmatched node types contribute nothing. -/
def kotlin_children_lines (children : List Node) (pfx : String) : List String :=
  (children.take 10).foldr
    (fun child acc =>
      (let ntype := child.type.getD ""
       if ntype = "TEXT" then kotlin_text_lines child pfx
       else if ntype = "FRAME" ∨ ntype = "GROUP" ∨ ntype = "COMPONENT" ∨ ntype = "INSTANCE"
           ∨ ntype = "RECTANGLE" then kotlin_box_lines child pfx
       else []) ++ acc)
    []

/-- The SwiftUI child loop renders exactly the first
`MAX_NATIVE_CHILDREN_LIMIT` visible children with non-empty renderings and
then one truncation marker, whose count is the total child count (invisible
children included) minus the cap. -/
theorem swiftui_children_go_spec (render : Node → String) (pfx : String) (total : ℕ) :
    ∀ (cs : List Node) (count : ℕ), count ≤ MAX_NATIVE_CHILDREN_LIMIT →
      MAX_NATIVE_CHILDREN_LIMIT - count
          < (cs.filter (fun c => c.visible.getD true && !(render c == ""))).length →
      swiftui_children_go render pfx total cs count
        = ((cs.filter (fun c => c.visible.getD true && !(render c == ""))).take
            (MAX_NATIVE_CHILDREN_LIMIT - count)).map render
          ++ [pfx ++ "    // ... " ++ toString (total - MAX_NATIVE_CHILDREN_LIMIT)
              ++ " more children truncated"] := by
  intro cs
  induction cs with
  | nil =>
    intro count _ hlt
    simp at hlt
  | cons c rest ih =>
    intro count hle hlt
    by_cases hcap : MAX_NATIVE_CHILDREN_LIMIT ≤ count
    · have hc : count = MAX_NATIVE_CHILDREN_LIMIT := le_antisymm hle hcap
      subst hc
      simp [swiftui_children_go, Nat.sub_self]
    · push_neg at hcap
      by_cases hvis : c.visible.getD true = false
      · have hp : (c.visible.getD true && !(render c == "")) = false := by simp [hvis]
        rw [List.filter_cons_of_neg (by simp [hp])] at hlt ⊢
        simp only [swiftui_children_go, if_neg (not_le.mpr hcap), if_pos hvis]
        exact ih count hle hlt
      · have hvis' : c.visible.getD true = true := by
          revert hvis; cases c.visible.getD true <;> simp
        by_cases hrc : render c = ""
        · have hp : (c.visible.getD true && !(render c == "")) = false := by
            simp [hvis', hrc]
          rw [List.filter_cons_of_neg (by simp [hp])] at hlt ⊢
          simp only [swiftui_children_go, if_neg (not_le.mpr hcap), if_neg hvis, if_pos hrc]
          exact ih count hle hlt
        · have hp : (c.visible.getD true && !(render c == "")) = true := by
            simp [hvis', hrc]
          rw [List.filter_cons_of_pos (by simp [hp])] at hlt ⊢
          have hsucc : MAX_NATIVE_CHILDREN_LIMIT - count
              = (MAX_NATIVE_CHILDREN_LIMIT - (count + 1)) + 1 := by omega
          have hlt' : MAX_NATIVE_CHILDREN_LIMIT - (count + 1)
              < (rest.filter (fun c => c.visible.getD true && !(render c == ""))).length := by
            simp only [List.length_cons] at hlt
            omega
          simp only [swiftui_children_go, if_neg (not_le.mpr hcap), if_neg hvis, if_neg hrc]
          rw [ih (count + 1) (by omega) hlt', hsucc, List.take_succ_cons, List.map_cons]
          simp

/-- A visible TEXT child node used for the Kotlin cap counterexample. -/
def kTextChild : Node :=
  { type := some "TEXT", visible := some true, characters := some "Label" }

/-- C2 counterexample: on a container with 16 visible TEXT children the
Kotlin renderer emits the code of exactly 10 children (the claim's native cap
is 15) with no truncation marker anywhere — its output is identical to the
10-child container's output. -/
theorem C2_kotlin_cap10_no_marker_counterexample :
    kotlin_children_lines (List.replicate 16 kTextChild) "        "
      = kotlin_children_lines (List.replicate 10 kTextChild) "        " ∧
    (kotlin_children_lines (List.replicate 16 kTextChild) "        ").length = 40 ∧
    (kotlin_children_lines (List.replicate 16 kTextChild) "        ").countP
        (fun l => l == "        Text(") = 10 ∧
    (10 : ℕ) ≠ 15 ∧
    ∀ l ∈ kotlin_children_lines (List.replicate 16 kTextChild) "        ",
      ¬ strHasSub l "truncated" := by
  refine ⟨by decide, by decide, by decide, by decide, by decide⟩

/-- C2 amended: only the SwiftUI renderer implements the cap-and-marker
policy — it renders the first 15 (`MAX_NATIVE_CHILDREN_LIMIT`) visible
children with non-empty renderings and then one truncation marker whose count
is the total child count (invisible children included) minus 15.  The JSX
renderer consumes exactly the first 20 children with no visibility filter and
no marker (a lone child is rendered whenever its rendering is non-empty,
visible or not), and the Kotlin renderer consumes exactly the first 10
children, likewise with no filter and no marker. -/
theorem C2_child_caps_per_renderer :
    (∀ (cs : List Node) (render : Node → String) (pfx : String),
        MAX_NATIVE_CHILDREN_LIMIT
            < (cs.filter (fun c => c.visible.getD true && !(render c == ""))).length →
        swiftui_children_lines cs render pfx
          = ((cs.filter (fun c => c.visible.getD true && !(render c == ""))).take
              MAX_NATIVE_CHILDREN_LIMIT).map render
            ++ [pfx ++ "    // ... " ++ toString (cs.length - MAX_NATIVE_CHILDREN_LIMIT)
                ++ " more children truncated"]) ∧
    (∀ (cs : List Node) (render : Node → String),
        jsx_children_lines cs render = jsx_children_lines (cs.take 20) render) ∧
    (∀ (c : Node) (render : Node → String),
        jsx_children_lines [c] render = if render c = "" then [] else [render c]) ∧
    (∀ (cs : List Node) (pfx : String),
        kotlin_children_lines cs pfx = kotlin_children_lines (cs.take 10) pfx) := by
  refine ⟨?_, ?_, ?_, ?_⟩
  · intro cs render pfx hlt
    have h := swiftui_children_go_spec render pfx cs.length cs 0 (by omega)
      (by simpa using hlt)
    simpa [swiftui_children_lines] using h
  · intro cs render
    simp [jsx_children_lines, List.take_take]
  · intro c render
    by_cases h : render c = "" <;> simp [jsx_children_lines, h]
  · intro cs pfx
    simp [kotlin_children_lines, List.take_take]

/-- C2 witness: the per-renderer cap facts instantiated at concrete child
lists, obtained from `C2_child_caps_per_renderer` itself. -/
theorem C2_child_caps_witness :
    swiftui_children_lines (List.replicate 16 ({} : Node)) (fun _ => "X") ""
      = List.replicate 15 "X" ++ ["    // ... 1 more children truncated"] ∧
    jsx_children_lines (List.replicate 25 ({} : Node)) (fun _ => "X")
      = jsx_children_lines ((List.replicate 25 ({} : Node)).take 20) (fun _ => "X") ∧
    jsx_children_lines [({ visible := some false } : Node)] (fun _ => "X") = ["X"] ∧
    kotlin_children_lines (List.replicate 12 kTextChild) "        "
      = kotlin_children_lines ((List.replicate 12 kTextChild).take 10) "        " :=
  ⟨(C2_child_caps_per_renderer.1 (List.replicate 16 {}) (fun _ => "X") "" (by decide)).trans
      (by decide),
   C2_child_caps_per_renderer.2.1 (List.replicate 25 {}) (fun _ => "X"),
   (C2_child_caps_per_renderer.2.2.1 { visible := some false } (fun _ => "X")).trans (by decide),
   C2_child_caps_per_renderer.2.2.2 (List.replicate 12 kTextChild) "        "⟩
